import Mathlib

/-!
Verification development for the LiveVerify browser-extension popup.

The repository is a React popup that captures a webcam frame or an uploaded
file, posts it to an external analysis backend, and renders the returned
classification.  This file shallowly embeds the pieces of the code the
claims are about:

* the two HTTP wrappers analyzeImage / verifyMedia (src/src/utils/api.ts),
  modelled as pure functions from the received HTTP response to a result
  or an error message;
* the result-presentation logic (src/src/components/ResultCard.tsx);
* the webcam capture/permission controller (the WebcamPreview component):
  its React state as an explicit record, stopCamera and the error-handling
  and message-handling paths as state-transition functions, and its
  outward side effects (track.stop calls, status-update callbacks) as an
  explicit action trace.

JavaScript strings are modelled as Lean Strings; the only string
operations the code uses are toLowerCase (modelled on ASCII by strToLower),
includes (modelled by strContains) and the truthiness test of the or
operator (modelled by jsOrString).  JavaScript numbers that the claims
touch (confidence values, status codes, track ids, millisecond times) are
integers in every behaviour at issue, and are modelled as Int / Nat.
-/

namespace LiveVerify

/-! ## String helpers modelling the JavaScript primitives used by the code -/

/-- Model of JavaScript toLowerCase on one ASCII character: code points
65..90 shift by 32, everything else is unchanged. -/
def charToLower (c : Char) : Char :=
  if 65 ≤ c.toNat ∧ c.toNat ≤ 90 then Char.ofNat (c.toNat + 32) else c

/-- Model of JavaScript String.prototype.toLowerCase restricted to ASCII,
which covers every label and error string the code compares. -/
def strToLower (s : String) : String := ⟨s.data.map charToLower⟩

/-- List-level test that the first list is an initial segment of the second. -/
def leadsWith : List Char → List Char → Bool
  | [], _ => true
  | _ :: _, [] => false
  | a :: as, b :: bs => a == b && leadsWith as bs

/-- List-level test that the first list occurs contiguously in the second. -/
def occursIn (needle : List Char) : List Char → Bool
  | [] => leadsWith needle []
  | b :: bs => leadsWith needle (b :: bs) || occursIn needle bs

/-- Model of JavaScript String.prototype.includes: sub occurs in s. -/
def strContains (s sub : String) : Bool := occursIn sub.data s.data

/-- Model of the JavaScript expression m or-else d for an optional string m:
the default is taken both when the field is absent and when it is the empty
string, because the empty string is falsy. -/
def jsOrString (m : Option String) (d : String) : String :=
  match m with
  | some s => if s = "" then d else s
  | none => d

/-! ## Data model (src/src/types.ts) -/

/-- The optional image descriptor attached to a response; size is a
number list or a single number in the TypeScript type. -/
structure ImageInfo where
  format : String
  size : List Int ⊕ Int
deriving DecidableEq

/-- The optional media descriptor attached to a verification response. -/
structure MediaInfo where
  type : String
  format : String
  size : List Int ⊕ Int
deriving DecidableEq

/-- The ApiResponse interface: the parsed JSON body of a backend reply.
Optional JSON fields are Options; an absent field and a present one are
distinguished, as in the code's truthiness tests. -/
structure ApiResponse where
  success : Bool
  label : String
  confidence : Int
  timestamp : String
  image_info : Option ImageInfo := none
  media_info : Option MediaInfo := none
  error : Option String := none
  message : Option String := none
deriving DecidableEq

/-- The AnalysisResult interface: the normalized record the API wrappers
return to their caller.  The label keeps the backend's string verbatim
(the source performs only a type cast, no runtime check). -/
structure AnalysisResult where
  success : Bool
  label : String
  confidence : Int
  timestamp : String
  image_info : Option ImageInfo := none
  media_info : Option MediaInfo := none
deriving DecidableEq

/-- An HTTP response as the fetch call delivers it: a numeric status and
the parsed JSON body. -/
structure HttpResponse where
  status : Nat
  body : ApiResponse
deriving DecidableEq

/-- Fetch's Response.ok flag: status in the inclusive range 200..299. -/
def respOk (status : Nat) : Bool := 200 ≤ status && status < 300

/-! ## API wrappers (src/src/utils/api.ts)

Each wrapper is modelled from the point the fetch resolves: the request
construction has no bearing on any claim.  A thrown Error is an
Except.error carrying the Error's message string. -/

/-- Embedding of analyzeImage: reject non-2xx statuses without touching
the body, reject success:false bodies with the message field (or the
default), otherwise repackage the body into an AnalysisResult. -/
def analyzeImage (response : HttpResponse) : Except String AnalysisResult :=
  if !respOk response.status then
    Except.error ("Backend error: " ++ toString response.status)
  else
    let data := response.body
    if !data.success then
      Except.error (jsOrString data.message "Analysis failed")
    else
      Except.ok
        { success := data.success
          label := data.label
          confidence := data.confidence
          timestamp := data.timestamp
          image_info := data.image_info
          media_info := none }

/-- Embedding of verifyMedia: identical control flow to analyzeImage with
the verification default message, and it forwards media_info instead. -/
def verifyMedia (response : HttpResponse) : Except String AnalysisResult :=
  if !respOk response.status then
    Except.error ("Backend error: " ++ toString response.status)
  else
    let data := response.body
    if !data.success then
      Except.error (jsOrString data.message "Verification failed")
    else
      Except.ok
        { success := data.success
          label := data.label
          confidence := data.confidence
          timestamp := data.timestamp
          image_info := none
          media_info := data.media_info }

/-! ## Result presentation (src/src/components/ResultCard.tsx) -/

/-- The record getResultDisplay returns: icon, text and the three colour
class names. -/
structure ResultDisplay where
  icon : String
  text : String
  color : String
  bgColor : String
  borderColor : String
deriving DecidableEq

/-- Embedding of getResultDisplay: a switch on the lower-cased label with
an Unknown fallback. -/
def getResultDisplay (label : String) : ResultDisplay :=
  if strToLower label = "real" then
    { icon := "✅", text := "Real", color := "text-green-400"
      bgColor := "bg-green-900/20", borderColor := "border-green-500/30" }
  else if strToLower label = "fake" then
    { icon := "❌", text := "Fake", color := "text-red-400"
      bgColor := "bg-red-900/20", borderColor := "border-red-500/30" }
  else if strToLower label = "suspicious" then
    { icon := "⚠️", text := "Suspicious", color := "text-yellow-400"
      bgColor := "bg-yellow-900/20", borderColor := "border-yellow-500/30" }
  else
    { icon := "❓", text := "Unknown", color := "text-gray-400"
      bgColor := "bg-gray-900/20", borderColor := "border-gray-500/30" }

/-- Embedding of the progress-bar colour chosen inline in the JSX: green
for a real label, red for fake, yellow for everything else. -/
def progressBarColor (label : String) : String :=
  if strToLower label = "real" then "bg-green-500"
  else if strToLower label = "fake" then "bg-red-500"
  else "bg-yellow-500"

/-- The visible content of a rendered result card, as far as the claims
reach: the display treatment, the confidence figure printed in the
Confidence line, and the progress bar's width percentage and colour. -/
structure RenderedCard where
  icon : String
  text : String
  color : String
  bgColor : String
  borderColor : String
  confidenceShown : Int
  barWidthPercent : Int
  barColor : String
deriving DecidableEq

/-- Embedding of the ResultCard render: applies getResultDisplay to the
result's label, prints the confidence verbatim, and sizes the bar to the
confidence value in percent. -/
def renderResultCard (result : AnalysisResult) : RenderedCard :=
  let display := getResultDisplay result.label
  { icon := display.icon
    text := display.text
    color := display.color
    bgColor := display.bgColor
    borderColor := display.borderColor
    confidenceShown := result.confidence
    barWidthPercent := result.confidence
    barColor := progressBarColor result.label }

/-! ## Webcam capture/permission controller (WebcamPreview component)

The component's React state is a record; the side effects the claims talk
about (stopping media tracks, the onStatusUpdate callback) are recorded in
an explicit action trace. -/

/-- The permissionStatus state variable. -/
inductive PermissionStatus where
  | unknown
  | requesting
  | granted
  | denied
deriving DecidableEq

/-- A track of the acquired media stream; stopping is modelled by the
action trace, so a track is just its identity. -/
structure MediaStreamTrack where
  id : Nat
deriving DecidableEq

/-- The component state the claims mention: the React state variables,
the streamRef holding the active session's tracks, and the video
element's srcObject. statusMessage is the last string passed to the
onStatusUpdate callback. -/
structure WebcamState where
  isCameraActive : Bool
  cameraError : Option String
  isRequestingCamera : Bool
  permissionStatus : PermissionStatus
  streamRef : Option (List MediaStreamTrack)
  videoSrcObject : Option (List MediaStreamTrack)
  statusMessage : String
deriving DecidableEq

/-- The outward side effects of a controller operation. -/
inductive CameraAction where
  | stopTrack (id : Nat)
  | statusUpdate (msg : String)
deriving DecidableEq

/-- Embedding of stopCamera: stop every track of the streamRef session (if
any) and clear the ref, detach the video element's srcObject, deactivate,
clear the error, reset permission to unknown, and report Camera stopped.
Returns the new state together with the emitted actions. -/
def stopCamera (s : WebcamState) : WebcamState × List CameraAction :=
  let stopActs : List CameraAction :=
    match s.streamRef with
    | some tracks => tracks.map fun t => CameraAction.stopTrack t.id
    | none => []
  ({ s with
      streamRef := none
      videoSrcObject := none
      isCameraActive := false
      cameraError := none
      permissionStatus := PermissionStatus.unknown
      statusMessage := "Camera stopped" },
    stopActs ++ [CameraAction.statusUpdate "Camera stopped"])

/-! ## startCamera error classification and the permission-page button -/

/-- What the catch block sees of a thrown value: its name property and its
message property, each possibly absent.  A thrown value with no name
property falls straight to the generic message. -/
structure AcquisitionError where
  name : Option String
  message : Option String
deriving DecidableEq

/-- The three effects the catch block's switch decides: the human-readable
message, whether the permission button should be offered, and whether the
branch sets permissionStatus to denied (only the NotAllowedError case
does). -/
structure ClassifiedError where
  errorMessage : String
  showPermissionButton : Bool
  setsDenied : Bool
deriving DecidableEq

/-- Embedding of the switch on the thrown error's name in startCamera's
catch block. -/
def classifyCameraError (e : AcquisitionError) : ClassifiedError :=
  match e.name with
  | none =>
      { errorMessage := "Camera access failed", showPermissionButton := false
        setsDenied := false }
  | some n =>
      if n = "NotAllowedError" then
        { errorMessage := "Camera permission denied. Please allow camera access."
          showPermissionButton := true, setsDenied := true }
      else if n = "NotFoundError" then
        { errorMessage := "No camera found on this device"
          showPermissionButton := false, setsDenied := false }
      else if n = "NotReadableError" then
        { errorMessage := "Camera is already in use by another application"
          showPermissionButton := false, setsDenied := false }
      else if n = "OverconstrainedError" then
        { errorMessage := "Camera does not support the required settings"
          showPermissionButton := false, setsDenied := false }
      else if n = "SecurityError" then
        { errorMessage := "Camera access blocked due to security restrictions"
          showPermissionButton := true, setsDenied := false }
      else if n = "AbortError" then
        { errorMessage := "Camera access was cancelled"
          showPermissionButton := false, setsDenied := false }
      else
        match e.message with
        | some m =>
            { errorMessage := m
              showPermissionButton := strContains m "Permission request failed"
              setsDenied := false }
        | none =>
            { errorMessage := "Camera access failed", showPermissionButton := false
              setsDenied := false }

/-- Embedding of the whole catch block of startCamera: classify the error,
apply the state updates, and append the open-permission-page hint to the
displayed error when the button is wanted and the popup runs in the
extension context. -/
def handleCameraError (isExtension : Bool) (s : WebcamState)
    (e : AcquisitionError) : WebcamState :=
  let c := classifyCameraError e
  let s1 := if c.setsDenied
    then { s with permissionStatus := PermissionStatus.denied } else s
  let s2 := { s1 with
    cameraError := some c.errorMessage
    statusMessage := c.errorMessage
    isCameraActive := false }
  let hinted := c.errorMessage ++ " Click \"Open Permission Page\" below to grant access."
  if c.showPermissionButton && isExtension then
    { s2 with cameraError := some hinted }
  else s2

/-- The render condition of the Open Permission Page button: it appears
inside the camera-error alert, only when an error is displayed, the
permission status is denied, and the popup runs in the extension
context. -/
def permissionButtonRendered (isExtension : Bool) (s : WebcamState) : Bool :=
  s.cameraError.isSome && s.permissionStatus == PermissionStatus.denied && isExtension

/-! ## Video-metadata readiness wait inside startCamera

The promise installs a loadedmetadata listener, an error listener and a
10000 ms timeout, and settles with whichever fires first; both listeners
are removed by every settling path.  The model takes the queue of video
events after the stream is bound, each with its delay in milliseconds,
in delivery order, and computes the settled outcome. -/

/-- A video-element event relevant to the wait. -/
inductive VideoEvent where
  | loadedmetadata
  | error
deriving DecidableEq

/-- The first event of the queue delivered strictly before the deadline,
if any; later events cannot settle the promise because the timeout has
already removed the listeners. -/
def firstEventBefore (deadline : Nat) :
    List (Nat × VideoEvent) → Option (Nat × VideoEvent)
  | [] => none
  | e :: rest =>
      if e.1 < deadline then some e else firstEventBefore deadline rest

/-- Embedding of the metadata wait: no video element rejects at once;
otherwise the first event delivered within 10000 ms decides resolution or
rejection, and if none arrives in time the timeout rejects. -/
def metadataWaitResult (videoPresent : Bool)
    (events : List (Nat × VideoEvent)) : Except String Unit :=
  if !videoPresent then Except.error "Video element not available"
  else
    match firstEventBefore 10000 events with
    | some (_, VideoEvent.loadedmetadata) => Except.ok ()
    | some (_, VideoEvent.error) => Except.error "Video loading failed"
    | none => Except.error "Video loading timeout"

/-! ## Permission-update push messages from the content script -/

/-- A runtime message as the listener sees it. -/
structure RuntimeMessage where
  action : String
  granted : Bool
  error : Option String := none
deriving DecidableEq

/-- Embedding of handleMessage in the permission-update effect: on a
cameraPermissionUpdate message the permission status follows the granted
flag; a grant that arrives while the stored status is denied also clears
the displayed error and posts the retry prompt; a denial stores the
pushed error string or a default.  Other actions are ignored. -/
def handlePermissionUpdate (s : WebcamState) (m : RuntimeMessage) :
    WebcamState :=
  if m.action = "cameraPermissionUpdate" then
    if m.granted then
      if s.permissionStatus = PermissionStatus.denied then
        { s with
            permissionStatus := PermissionStatus.granted
            cameraError := none
            statusMessage :=
              "Camera permission granted! Click \"Start Camera\" to continue." }
      else { s with permissionStatus := PermissionStatus.granted }
    else
      { s with
          permissionStatus := PermissionStatus.denied
          cameraError := some (jsOrString m.error "Camera permission denied") }
  else s

/-! ## Host-page relay calls (requestPermissionViaContentScript,
checkPermissionStatus)

The chrome.tabs API surface is modelled by the outcomes of its two
awaited calls; an Except.error is a rejected promise / thrown exception.
The message response is an arbitrary value, so it is an optional record;
its success and granted fields are read with optional chaining. -/

/-- A browser tab as tabs.query returns it: the id may be absent, and a
present id of 0 is still falsy for the code's test. -/
structure Tab where
  id : Option Nat
deriving DecidableEq

/-- The relevant fields of a content-script reply. -/
structure RelayResponse where
  success : Bool := false
  granted : Bool := false
deriving DecidableEq

/-- Outcomes of the two awaited chrome.tabs calls. -/
structure TabsApi where
  queryResult : Except String (List Tab)
  sendMessageResult : Except String (Option RelayResponse)

/-- The extension environment: whether a runtime id is exposed and
whether the tabs API is present. -/
structure ChromeEnv where
  isExtension : Bool
  tabs : Option TabsApi

/-- Truthiness of the optional-chained tab id: absent tab, absent id and
id 0 are all falsy. -/
def tabIdTruthy (tabs : List Tab) : Bool :=
  match tabs.head? with
  | none => false
  | some t =>
      match t.id with
      | none => false
      | some i => i != 0

/-- The try block of requestPermissionViaContentScript: query the active
tab, throw when there is none, send the request message, and read the
reply's success flag (false when the reply is not an object). -/
def requestPermissionTry (api : TabsApi) : Except String Bool :=
  match api.queryResult with
  | Except.error e => Except.error e
  | Except.ok tabs =>
      if !tabIdTruthy tabs then
        Except.error "No active tab found"
      else
        match api.sendMessageResult with
        | Except.error e => Except.error e
        | Except.ok response =>
            Except.ok (match response with
              | some r => r.success
              | none => false)

/-- Embedding of requestPermissionViaContentScript: bail out with false
outside the extension context or without a tabs API, run the try block,
and turn any thrown error into false. -/
def requestPermissionViaContentScript (env : ChromeEnv) : Bool :=
  if !env.isExtension then false
  else
    match env.tabs with
    | none => false
    | some api =>
        match requestPermissionTry api with
        | Except.ok b => b
        | Except.error _ => false

/-- The try block of checkPermissionStatus: like the request, but a
missing active tab returns false instead of throwing, and the reply's
granted flag is read. -/
def checkPermissionTry (api : TabsApi) : Except String Bool :=
  match api.queryResult with
  | Except.error e => Except.error e
  | Except.ok tabs =>
      if !tabIdTruthy tabs then
        Except.ok false
      else
        match api.sendMessageResult with
        | Except.error e => Except.error e
        | Except.ok response =>
            Except.ok (match response with
              | some r => r.granted
              | none => false)

/-- Embedding of checkPermissionStatus: same guards and catch as the
request path around its own try block. -/
def checkPermissionStatus (env : ChromeEnv) : Bool :=
  if !env.isExtension then false
  else
    match env.tabs with
    | none => false
    | some api =>
        match checkPermissionTry api with
        | Except.ok b => b
        | Except.error _ => false

/-! ## Helper lemmas -/

/-- A list is an initial segment of itself. -/
theorem leadsWith_self (l : List Char) : leadsWith l l = true := by
  induction l with
  | nil => rfl
  | cons a as ih => simp [leadsWith, ih]

/-- A list occurs in any list that appends it on the right. -/
theorem occursIn_append_self (pre l : List Char) :
    occursIn l (pre ++ l) = true := by
  induction pre with
  | nil =>
      cases l with
      | nil => rfl
      | cons b bs => simp [occursIn, leadsWith_self]
  | cons a as ih => simp [occursIn, ih]

/-- Appending a string on the right makes it a contained substring. -/
theorem strContains_append_self (pre t : String) :
    strContains (pre ++ t) t = true := by
  unfold strContains
  rw [String.data_append]
  exact occursIn_append_self pre.data t.data

/-- Concrete responses used to instantiate the claim theorems. -/
def fakeSuccessResponse : HttpResponse :=
  ⟨200, { success := true, label := "Fake", confidence := 87, timestamp := "T" }⟩

def badImageResponse : HttpResponse :=
  ⟨200, { success := false, label := "", confidence := 0, timestamp := ""
          message := some "bad image" }⟩

def emptyMessageResponse : HttpResponse :=
  ⟨200, { success := false, label := "", confidence := 0, timestamp := ""
          message := some "" }⟩

def plainBody : ApiResponse :=
  { success := true, label := "x", confidence := 1, timestamp := "t" }

/-- The controller state midway through startCamera, right before the
getUserMedia call throws: requesting, no error yet, no stream. -/
def requestingState : WebcamState :=
  { isCameraActive := false, cameraError := none, isRequestingCamera := true
    permissionStatus := PermissionStatus.requesting
    streamRef := none, videoSrcObject := none
    statusMessage := "Accessing camera..." }

/-- A controller state showing a denial, as after a NotAllowedError. -/
def deniedState : WebcamState :=
  { isCameraActive := false
    cameraError := some "Camera permission denied. Please allow camera access."
    isRequestingCamera := false
    permissionStatus := PermissionStatus.denied
    streamRef := none, videoSrcObject := none
    statusMessage := "Camera permission denied. Please allow camera access." }

/-- A tabs API whose awaited calls both reject. -/
def failingTabsApi : TabsApi :=
  ⟨Except.error "query rejected", Except.error "send rejected"⟩

/-- A result with an unrecognized label. -/
def bananaResult : AnalysisResult :=
  { success := true, label := "Banana", confidence := 42, timestamp := "T" }

/-- A controller state with one live camera track, as after a successful
startCamera. -/
def activeOneTrackState : WebcamState :=
  { isCameraActive := true, cameraError := none, isRequestingCamera := false
    permissionStatus := PermissionStatus.granted
    streamRef := some [⟨7⟩], videoSrcObject := some [⟨7⟩]
    statusMessage := "Camera ready - Click \"Scan Frame\" to analyze" }

/-! ## Claim theorems -/

/-- C1: for every backend response with a 2xx status and success:true,
analyzeImage and verifyMedia return normally with a result carrying the
response's label, confidence and timestamp. -/
theorem c1_success_normalization (resp : HttpResponse)
    (hok : respOk resp.status = true) (hs : resp.body.success = true) :
    (∃ r, analyzeImage resp = Except.ok r ∧ r.label = resp.body.label ∧
        r.confidence = resp.body.confidence ∧ r.timestamp = resp.body.timestamp) ∧
    (∃ r, verifyMedia resp = Except.ok r ∧ r.label = resp.body.label ∧
        r.confidence = resp.body.confidence ∧ r.timestamp = resp.body.timestamp) := by
  constructor
  · refine ⟨{ success := true, label := resp.body.label
              confidence := resp.body.confidence, timestamp := resp.body.timestamp
              image_info := resp.body.image_info, media_info := none },
      ?_, rfl, rfl, rfl⟩
    simp [analyzeImage, hok, hs]
  · refine ⟨{ success := true, label := resp.body.label
              confidence := resp.body.confidence, timestamp := resp.body.timestamp
              image_info := none, media_info := resp.body.media_info },
      ?_, rfl, rfl, rfl⟩
    simp [verifyMedia, hok, hs]

/-- C1 witness: the response with label Fake, confidence 87 and timestamp
T yields a normalized result with exactly those fields. -/
theorem c1_witness :
    respOk fakeSuccessResponse.status = true ∧
    fakeSuccessResponse.body.success = true ∧
    (∃ r, analyzeImage fakeSuccessResponse = Except.ok r ∧
        r.label = "Fake" ∧ r.confidence = 87 ∧ r.timestamp = "T") ∧
    (∃ r, verifyMedia fakeSuccessResponse = Except.ok r ∧
        r.label = "Fake" ∧ r.confidence = 87 ∧ r.timestamp = "T") :=
  ⟨rfl, rfl,
    (c1_success_normalization fakeSuccessResponse rfl rfl).1,
    (c1_success_normalization fakeSuccessResponse rfl rfl).2⟩

/-- C2 counterexample: the message field can be present (as the empty
string) yet the surfaced failure carries the default message, not the
field's value. -/
theorem c2_counterexample :
    emptyMessageResponse.body.message = some "" ∧
    analyzeImage emptyMessageResponse = Except.error "Analysis failed" ∧
    verifyMedia emptyMessageResponse = Except.error "Verification failed" ∧
    ("Analysis failed" : String) ≠ "" :=
  ⟨rfl, rfl, rfl, by decide⟩

/-- C2 (amended): on a 2xx response with success:false, the surfaced
failure message is the response's message field when it is present and
non-empty, and the operation's default message when the field is absent
or empty. -/
theorem c2_failure_message (resp : HttpResponse)
    (hok : respOk resp.status = true) (hs : resp.body.success = false) :
    (∀ m, resp.body.message = some m → m ≠ "" →
        analyzeImage resp = Except.error m ∧ verifyMedia resp = Except.error m) ∧
    (resp.body.message = none ∨ resp.body.message = some "" →
        analyzeImage resp = Except.error "Analysis failed" ∧
        verifyMedia resp = Except.error "Verification failed") := by
  constructor
  · intro m hm hne
    constructor <;> simp [analyzeImage, verifyMedia, hok, hs, jsOrString, hm, hne]
  · rintro (hm | hm) <;>
      constructor <;> simp [analyzeImage, verifyMedia, hok, hs, jsOrString, hm]

/-- C2 witness: the message bad image is surfaced verbatim by both
wrappers. -/
theorem c2_witness :
    respOk badImageResponse.status = true ∧
    badImageResponse.body.success = false ∧
    analyzeImage badImageResponse = Except.error "bad image" ∧
    verifyMedia badImageResponse = Except.error "bad image" :=
  ⟨rfl, rfl,
    ((c2_failure_message badImageResponse rfl rfl).1 "bad image" rfl (by decide)).1,
    ((c2_failure_message badImageResponse rfl rfl).1 "bad image" rfl (by decide)).2⟩

/-- C3: every non-2xx response makes both wrappers fail with a message
containing the numeric status code, and the failure is independent of the
response body. -/
theorem c3_http_error (status : Nat) (b1 b2 : ApiResponse)
    (h : respOk status = false) :
    analyzeImage ⟨status, b1⟩ =
      Except.error ("Backend error: " ++ toString status) ∧
    verifyMedia ⟨status, b1⟩ =
      Except.error ("Backend error: " ++ toString status) ∧
    strContains ("Backend error: " ++ toString status) (toString status) = true ∧
    analyzeImage ⟨status, b1⟩ = analyzeImage ⟨status, b2⟩ ∧
    verifyMedia ⟨status, b1⟩ = verifyMedia ⟨status, b2⟩ := by
  refine ⟨?_, ?_, strContains_append_self _ _, ?_, ?_⟩ <;>
    simp [analyzeImage, verifyMedia, h]

/-- C3 witness: status 500 fails with a message containing 500, for any
body. -/
theorem c3_witness :
    respOk 500 = false ∧
    analyzeImage ⟨500, plainBody⟩ =
      Except.error ("Backend error: " ++ toString 500) ∧
    strContains ("Backend error: " ++ toString 500) (toString 500) = true :=
  ⟨rfl, (c3_http_error 500 plainBody plainBody rfl).1,
    (c3_http_error 500 plainBody plainBody rfl).2.2.1⟩

/-- C4: labels that agree up to letter casing get the same display
treatment (icon, text, the three colour classes) and the same progress
bar colour, because both only consult the lower-cased label. -/
theorem c4_case_invariance (l1 l2 : String)
    (h : strToLower l1 = strToLower l2) :
    getResultDisplay l1 = getResultDisplay l2 ∧
    progressBarColor l1 = progressBarColor l2 := by
  constructor <;> simp only [getResultDisplay, progressBarColor, h]

/-- C4 witness: REAL, Real and real all get the treatment of real. -/
theorem c4_witness :
    (strToLower "REAL" = strToLower "real" ∧
      getResultDisplay "REAL" = getResultDisplay "real" ∧
      progressBarColor "REAL" = progressBarColor "real") ∧
    (strToLower "Real" = strToLower "real" ∧
      getResultDisplay "Real" = getResultDisplay "real" ∧
      progressBarColor "Real" = progressBarColor "real") :=
  ⟨⟨by decide, c4_case_invariance "REAL" "real" (by decide)⟩,
    ⟨by decide, c4_case_invariance "Real" "real" (by decide)⟩⟩

/-- C5: stopCamera leaves the controller in the Idle shape from any state
(no stream, detached sink, inactive, no error, permission unknown), the
call from an active session emits a stop action for every track of that
session, the call with no session emits no track-stop action (only the
status report) and returns normally, and a second consecutive call leaves
the state unchanged. -/
theorem c5_stopCamera_idempotent (s : WebcamState) :
    (stopCamera s).1.streamRef = none ∧
    (stopCamera s).1.videoSrcObject = none ∧
    (stopCamera s).1.isCameraActive = false ∧
    (stopCamera s).1.cameraError = none ∧
    (stopCamera s).1.permissionStatus = PermissionStatus.unknown ∧
    (∀ tracks, s.streamRef = some tracks →
        ∀ t ∈ tracks, CameraAction.stopTrack t.id ∈ (stopCamera s).2) ∧
    (s.streamRef = none →
        (stopCamera s).2 = [CameraAction.statusUpdate "Camera stopped"]) ∧
    stopCamera (stopCamera s).1 =
      ((stopCamera s).1, [CameraAction.statusUpdate "Camera stopped"]) := by
  refine ⟨rfl, rfl, rfl, rfl, rfl, ?_, ?_, ?_⟩
  · intro tracks htr t ht
    simp only [stopCamera, htr, List.mem_append, List.mem_map]
    exact Or.inl ⟨t, ht, rfl⟩
  · intro h
    simp [stopCamera, h]
  · simp [stopCamera]

/-- C5 witness: a state with one live track is stopped, the track's stop
action is emitted, and stopping again changes nothing. -/
theorem c5_witness :
    (stopCamera activeOneTrackState).1.streamRef = none ∧
    (stopCamera activeOneTrackState).1.permissionStatus =
      PermissionStatus.unknown ∧
    CameraAction.stopTrack 7 ∈ (stopCamera activeOneTrackState).2 ∧
    stopCamera (stopCamera activeOneTrackState).1 =
      ((stopCamera activeOneTrackState).1,
        [CameraAction.statusUpdate "Camera stopped"]) :=
  ⟨(c5_stopCamera_idempotent activeOneTrackState).1,
    (c5_stopCamera_idempotent activeOneTrackState).2.2.2.2.1,
    (c5_stopCamera_idempotent activeOneTrackState).2.2.2.2.2.1
      [⟨7⟩] rfl ⟨7⟩ (by simp),
    (c5_stopCamera_idempotent activeOneTrackState).2.2.2.2.2.2.2⟩

/-- C6 helper: no event of the queue beats the deadline if each is
delivered at or after it. -/
theorem firstEventBefore_eq_none (d : Nat) (events : List (Nat × VideoEvent))
    (h : ∀ e ∈ events, d ≤ e.1) : firstEventBefore d events = none := by
  induction events with
  | nil => rfl
  | cons e rest ih =>
      simp only [firstEventBefore, Nat.not_lt.mpr (h e (by simp)), if_false]
      exact ih fun x hx => h x (by simp [hx])

/-- C6: if neither a loadedmetadata event nor an error event is delivered
within 10 seconds of binding the stream, the metadata wait settles with
the timeout rejection instead of hanging. -/
theorem c6_metadata_wait_timeout (events : List (Nat × VideoEvent))
    (h : ∀ e ∈ events, 10000 ≤ e.1) :
    metadataWaitResult true events = Except.error "Video loading timeout" := by
  simp [metadataWaitResult, firstEventBefore_eq_none 10000 events h]

/-- C6 witness: a metadata event arriving only at 12 seconds leaves the
wait to the timeout rejection. -/
theorem c6_witness :
    (∀ e ∈ [((12000 : Nat), VideoEvent.loadedmetadata)], 10000 ≤ e.1) ∧
    metadataWaitResult true [((12000 : Nat), VideoEvent.loadedmetadata)] =
      Except.error "Video loading timeout" :=
  ⟨by decide, c6_metadata_wait_timeout _ (by decide)⟩

/-- C7: the six named acquisition-error classes map to pairwise distinct
messages and the classifier flags the permission button for both the
permission-denied and the security-blocked class; but on a SecurityError
in the extension context the displayed error text promises the Open
Permission Page button while the permission status stays requesting, so
the button's render condition is false and the secondary action is not
actually surfaced — unlike the NotAllowedError case, where it is. -/
theorem c7_security_blocked_action_missing :
    List.Pairwise (fun a b => a ≠ b)
      [(classifyCameraError ⟨some "NotAllowedError", none⟩).errorMessage,
        (classifyCameraError ⟨some "NotFoundError", none⟩).errorMessage,
        (classifyCameraError ⟨some "NotReadableError", none⟩).errorMessage,
        (classifyCameraError ⟨some "OverconstrainedError", none⟩).errorMessage,
        (classifyCameraError ⟨some "SecurityError", none⟩).errorMessage,
        (classifyCameraError ⟨some "AbortError", none⟩).errorMessage] ∧
    (classifyCameraError ⟨some "NotAllowedError", none⟩).showPermissionButton
      = true ∧
    (classifyCameraError ⟨some "SecurityError", none⟩).showPermissionButton
      = true ∧
    strContains
      ((handleCameraError true requestingState
          ⟨some "SecurityError", none⟩).cameraError.getD "")
      "Open Permission Page" = true ∧
    (handleCameraError true requestingState
        ⟨some "SecurityError", none⟩).permissionStatus =
      PermissionStatus.requesting ∧
    permissionButtonRendered true
      (handleCameraError true requestingState ⟨some "SecurityError", none⟩)
      = false ∧
    permissionButtonRendered true
      (handleCameraError true requestingState ⟨some "NotAllowedError", none⟩)
      = true := by
  decide

/-- C8: a cameraPermissionUpdate message sets the permission status to
granted exactly when its granted flag is set and to denied otherwise, and
a grant received while the stored status is denied also clears the
displayed camera error and posts the retry prompt. -/
theorem c8_permission_update (s : WebcamState) (m : RuntimeMessage)
    (ha : m.action = "cameraPermissionUpdate") :
    (m.granted = true →
        (handlePermissionUpdate s m).permissionStatus =
          PermissionStatus.granted) ∧
    (m.granted = false →
        (handlePermissionUpdate s m).permissionStatus =
          PermissionStatus.denied) ∧
    (m.granted = true → s.permissionStatus = PermissionStatus.denied →
        (handlePermissionUpdate s m).cameraError = none ∧
        (handlePermissionUpdate s m).statusMessage =
          "Camera permission granted! Click \"Start Camera\" to continue.") := by
  refine ⟨?_, ?_, ?_⟩
  · intro hg
    by_cases hp : s.permissionStatus = PermissionStatus.denied <;>
      simp [handlePermissionUpdate, ha, hg, hp]
  · intro hg
    simp [handlePermissionUpdate, ha, hg]
  · intro hg hp
    constructor <;> simp [handlePermissionUpdate, ha, hg, hp]

/-- C8 witness: a grant pushed while the controller shows a denial clears
the error and posts the retry prompt. -/
theorem c8_witness :
    ((⟨"cameraPermissionUpdate", true, none⟩ : RuntimeMessage).action =
      "cameraPermissionUpdate") ∧
    deniedState.permissionStatus = PermissionStatus.denied ∧
    (handlePermissionUpdate deniedState
        ⟨"cameraPermissionUpdate", true, none⟩).permissionStatus =
      PermissionStatus.granted ∧
    (handlePermissionUpdate deniedState
        ⟨"cameraPermissionUpdate", true, none⟩).cameraError = none ∧
    (handlePermissionUpdate deniedState
        ⟨"cameraPermissionUpdate", true, none⟩).statusMessage =
      "Camera permission granted! Click \"Start Camera\" to continue." :=
  ⟨rfl, rfl,
    (c8_permission_update deniedState ⟨"cameraPermissionUpdate", true, none⟩
      rfl).1 rfl,
    ((c8_permission_update deniedState ⟨"cameraPermissionUpdate", true, none⟩
      rfl).2.2 rfl rfl).1,
    ((c8_permission_update deniedState ⟨"cameraPermissionUpdate", true, none⟩
      rfl).2.2 rfl rfl).2⟩

/-- C9: every listed relay failure (no extension context, no tabs API, a
rejected tab query, no usable active tab, a rejected message send) makes
both checkPermissionStatus and requestPermissionViaContentScript return
false; no failure escapes to the caller. -/
theorem c9_relay_failures_absorbed (env : ChromeEnv) (api : TabsApi) :
    (env.isExtension = false →
        requestPermissionViaContentScript env = false ∧
        checkPermissionStatus env = false) ∧
    (env.tabs = none →
        requestPermissionViaContentScript env = false ∧
        checkPermissionStatus env = false) ∧
    (∀ e, api.queryResult = Except.error e →
        requestPermissionViaContentScript ⟨true, some api⟩ = false ∧
        checkPermissionStatus ⟨true, some api⟩ = false) ∧
    (∀ tabs, api.queryResult = Except.ok tabs → tabIdTruthy tabs = false →
        requestPermissionViaContentScript ⟨true, some api⟩ = false ∧
        checkPermissionStatus ⟨true, some api⟩ = false) ∧
    (∀ tabs e, api.queryResult = Except.ok tabs →
        api.sendMessageResult = Except.error e →
        requestPermissionViaContentScript ⟨true, some api⟩ = false ∧
        checkPermissionStatus ⟨true, some api⟩ = false) := by
  refine ⟨?_, ?_, ?_, ?_, ?_⟩
  · intro h
    constructor <;>
      simp [requestPermissionViaContentScript, checkPermissionStatus, h]
  · intro h
    cases he : env.isExtension <;>
      constructor <;>
        simp [requestPermissionViaContentScript, checkPermissionStatus, h, he]
  · intro e he
    constructor <;>
      simp [requestPermissionViaContentScript, checkPermissionStatus,
        requestPermissionTry, checkPermissionTry, he]
  · intro tabs hq ht
    constructor <;>
      simp [requestPermissionViaContentScript, checkPermissionStatus,
        requestPermissionTry, checkPermissionTry, hq, ht]
  · intro tabs e hq hs
    cases ht : tabIdTruthy tabs <;>
      constructor <;>
        simp [requestPermissionViaContentScript, checkPermissionStatus,
          requestPermissionTry, checkPermissionTry, hq, hs, ht]

/-- C9 witness: a missing tabs API and a rejected tab query both come
back as false from the two relay helpers. -/
theorem c9_witness :
    requestPermissionViaContentScript ⟨true, none⟩ = false ∧
    checkPermissionStatus ⟨true, none⟩ = false ∧
    requestPermissionViaContentScript ⟨true, some failingTabsApi⟩ = false ∧
    checkPermissionStatus ⟨true, some failingTabsApi⟩ = false :=
  ⟨((c9_relay_failures_absorbed ⟨true, none⟩ failingTabsApi).2.1 rfl).1,
    ((c9_relay_failures_absorbed ⟨true, none⟩ failingTabsApi).2.1 rfl).2,
    ((c9_relay_failures_absorbed ⟨true, none⟩ failingTabsApi).2.2.1
      "query rejected" rfl).1,
    ((c9_relay_failures_absorbed ⟨true, none⟩ failingTabsApi).2.2.1
      "query rejected" rfl).2⟩

/-- C10: a result whose lower-cased label is none of real, fake and
suspicious renders the Unknown fallback treatment while still showing the
numeric confidence and a progress bar whose width percentage equals the
confidence. -/
theorem c10_unknown_label_fallback (result : AnalysisResult)
    (h1 : strToLower result.label ≠ "real")
    (h2 : strToLower result.label ≠ "fake")
    (h3 : strToLower result.label ≠ "suspicious") :
    renderResultCard result =
      { icon := "❓", text := "Unknown", color := "text-gray-400"
        bgColor := "bg-gray-900/20", borderColor := "border-gray-500/30"
        confidenceShown := result.confidence
        barWidthPercent := result.confidence
        barColor := "bg-yellow-500" } := by
  simp [renderResultCard, getResultDisplay, progressBarColor, h1, h2, h3]

/-- C10 witness: the label Banana with confidence 42 renders the Unknown
treatment with the confidence shown and a 42 percent bar. -/
theorem c10_witness :
    strToLower (bananaResult.label) ≠ "real" ∧
    strToLower (bananaResult.label) ≠ "fake" ∧
    strToLower (bananaResult.label) ≠ "suspicious" ∧
    renderResultCard bananaResult =
      { icon := "❓", text := "Unknown", color := "text-gray-400"
        bgColor := "bg-gray-900/20", borderColor := "border-gray-500/30"
        confidenceShown := 42, barWidthPercent := 42
        barColor := "bg-yellow-500" } :=
  ⟨by decide, by decide, by decide,
    c10_unknown_label_fallback bananaResult (by decide) (by decide) (by decide)⟩

end LiveVerify
